import Mathlib

/-!
Shallow embedding of the nationbuilder-py client library core
(`nb_api.py`, `people.py`, `pages.py`, `blog.py`, `nationbuilder.py`).

JSON bodies are modelled by an inductive `Json` type; Python exceptions by
`Except` with an explicit error type; the HTTP layer by oracles mapping a
page number (counted pagination) or a URL (link pagination) to a canned
`Response`.  Response bodies are modelled as already-parsed JSON (the
`.json()` decode step is assumed to succeed).
-/

namespace NbPy

/-- A JSON value, as decoded by `response.json()`.  Objects keep their
fields in insertion order, like Python dicts. -/
inductive Json where
  | null : Json
  | bool (b : Bool) : Json
  | num (n : Int) : Json
  | str (s : String) : Json
  | arr (xs : List Json) : Json
  | obj (fields : List (String × Json)) : Json

/-- Python `d[k]` on a JSON object: first field named `k`, `none` models a
`KeyError` (or indexing a non-object). -/
def Json.lookup : Json → String → Option Json
  | .obj fields, k => fields.lookup k
  | _, _ => none

/-- Python `int(...)`-valued field coerced to a `Nat` for `range`; a
negative count behaves like `0` (the `range` it feeds is empty either way). -/
def Json.asNat : Json → Option Nat
  | .num n => some n.toNat
  | _ => none

/-- Python iteration over a value (`for x in v`, `list += v`): a list yields
its elements, a dict yields its KEYS (as strings), a string yields its
characters.  `none` models a `TypeError` on a non-iterable. -/
def pyIter : Json → Option (List Json)
  | .arr xs => some xs
  | .obj fields => some (fields.map fun f => Json.str f.1)
  | .str s => some (s.data.map fun c => Json.str (String.mk [c]))
  | _ => none

/-- Python `result += v` where `result` holds a list: extends the list with
the iteration of `v`; any other left operand, or a non-iterable right
operand, models a `TypeError`. -/
def pyIAdd : Json → Json → Option Json
  | .arr xs, v => (pyIter v).map fun ys => Json.arr (xs ++ ys)
  | _, _ => none

/-- Which `NBResponseError` subclass `_raise_error` picks (`nb_api.py` 142-146):
`NBNotFoundError` for 404, `NBBadRequestError` for 400, the base
`NBResponseError` otherwise. -/
inductive ErrKind where
  | notFound : ErrKind
  | badRequest : ErrKind
  | generic : ErrKind
deriving DecidableEq

/-- The payload of an `NBResponseError` (`nb_api.py` 162-179): message,
response headers, raw response body text, and the requested url. -/
structure NBError where
  kind : ErrKind
  msg : String
  header : List (String × String)
  body : String
  url : Option String
deriving DecidableEq

/-- A raised Python exception: the `NBResponseError` family from `nb_api.py`,
plus the builtin exceptions the source can raise (`KeyError` from a missing
dict key, `TypeError` from iterating or `+=`-ing a non-iterable,
`AssertionError` from the bare `assert` in `_authorize`).
`configurationError` does not correspond to any class in the source; it is
modelled from the spec, whose error taxonomy names a ConfigurationError for
missing credentials, so that the spec's claim about it can be stated. -/
inductive PyErr where
  | nb (e : NBError) : PyErr
  | keyError (k : String) : PyErr
  | typeError : PyErr
  | assertionError : PyErr
  | configurationError : PyErr

/-- An HTTP response as seen by the client: status code, headers, raw body
text, the requests-library `response.url`, and the body parsed as JSON
(`response.json()`; bodies are modelled as already-decoded JSON). -/
structure Response where
  status_code : Nat
  headers : List (String × String)
  text : String
  url : String
  json : Json

/-- Python `response.ok` from the requests library: true iff the status code
is below 400. -/
def Response.ok (r : Response) : Bool :=
  r.status_code < 400

/-- Python `attempted_action or "Unknown action"` (`nb_api.py` 135): `None`
and the empty string are falsy. -/
def actionOr : Option String → String
  | some s => if s = "" then "Unknown action" else s
  | none => "Unknown action"

/-- `NationBuilderApi._raise_error` (`nb_api.py` 140-147): looks the status
code up in `\x7b404: NBNotFoundError, 400: NBBadRequestError\x7d`, falls back
to `NBResponseError`, and raises it with the message, the response headers,
the response body text and the url. -/
def _raise_error (msg : String) (r : Response) (url : Option String) :
    Except PyErr Unit :=
  let kind := if r.status_code = 404 then ErrKind.notFound
    else if r.status_code = 400 then ErrKind.badRequest
    else ErrKind.generic
  .error (.nb ⟨kind, msg, r.headers, r.text, url⟩)

/-- `NationBuilderApi._check_response` (`nb_api.py` 131-138): raises via
`_raise_error` when the status code is below 200 or above 299, otherwise
only logs and returns normally. -/
def _check_response (r : Response) (attempted_action : Option String)
    (url : Option String) : Except PyErr Unit :=
  if r.status_code < 200 ∨ r.status_code > 299 then
    _raise_error (actionOr attempted_action) r url
  else
    .ok ()

/-- Python `range(a, b)` as the list `[a, a+1, ..., b-1]`. -/
def rangePy (a b : Nat) : List Nat :=
  List.range' a (b - a)

/-- `BASE_URL` (`nb_api.py` 75-76). -/
def BASE_URL (slug : String) : String :=
  "https://" ++ slug ++ ".nationbuilder.com/api/v1"

/-- `PAGINATE_QUERY` (`nb_api.py` 77) with its placeholders filled. -/
def PAGINATE_QUERY (page per_page : Nat) : String :=
  "?page=" ++ toString page ++ "&per_page=" ++ toString per_page

/-- `GET_PEOPLE_URL` (`nb_api.py` 90). -/
def GET_PEOPLE_URL (slug : String) : String :=
  BASE_URL slug ++ "/people"

/-- `PAGES_URL` (`nb_api.py` 88) with its site placeholder filled. -/
def PAGES_URL (slug site_slug : String) : String :=
  BASE_URL slug ++ "/sites/" ++ site_slug ++ "/pages/basic_pages"

/-- `BLOGS_URL` (`nb_api.py` 80) with its site placeholder filled. -/
def BLOGS_URL (slug site_slug : String) : String :=
  BASE_URL slug ++ "/sites/" ++ site_slug ++ "/pages/blogs"

/-- `BLOG_POSTS_URL` (`nb_api.py` 81) with its placeholders filled: the
source template concatenates the blog id directly after `blogs`, without a
separating slash. -/
def BLOG_POSTS_URL (slug site_slug : String) (blog_id : Int) : String :=
  BLOGS_URL slug site_slug ++ toString blog_id ++ "/posts"

/-- A canned HTTP layer for a counted-pagination endpoint: the response the
server returns for the request carrying a given `page` number (the
`page`/`per_page` query formatting is injective in the page number, so the
oracle is keyed directly by it). -/
def PageSession : Type := Nat → Response

/-- The inner page fetch shared by `search` (`people.py` 187-191),
`get_people_iter`'s `get_people_page` (`people.py` 280-286) and
`get_nearby`'s `get_nearby_page` (`people.py` 317-322): issue the GET for
one page, validate through `_check_response`, return `response.json()`. -/
def fetchPage (session : PageSession) (action url : String) (page : Nat) :
    Except PyErr Json :=
  let r := session page
  match _check_response r (some action) (some url) with
  | .error e => .error e
  | .ok _ => .ok r.json

/-- The accumulating loop `for page_no in range(2, total_pages + 1):
result += extract(page_json)` shared by `search` (`people.py` 196-197,
where `extract` reads the page's `results` entry) and `get_nearby`
(`people.py` 327-328, where `extract` is the identity: the source appends
the whole page object).  Returns the Python outcome together with the list
of page numbers actually requested by the loop, in request order. -/
def runPages (fetch : Nat → Except PyErr Json)
    (extract : Json → Except PyErr Json) :
    Json → List Nat → Except PyErr Json × List Nat
  | acc, [] => (.ok acc, [])
  | acc, p :: rest =>
    match fetch p with
    | .error e => (.error e, [p])
    | .ok page =>
      match extract page with
      | .error e => (.error e, [p])
      | .ok v =>
        match pyIAdd acc v with
        | none => (.error .typeError, [p])
        | some acc2 =>
          let step := runPages fetch extract acc2 rest
          (step.1, p :: step.2)

/-- The counted-pagination skeleton of `search` (`people.py` 193-199) and
`get_nearby` (`people.py` 324-330): fetch page 1, read `total_pages` and
`results` from it, then run the accumulation loop over
`range(2, total_pages + 1)`.  Returns the outcome and the pages requested
in order. -/
def countedPaginate (fetch : Nat → Except PyErr Json)
    (extract : Json → Except PyErr Json) : Except PyErr Json × List Nat :=
  match fetch 1 with
  | .error e => (.error e, [1])
  | .ok first_page =>
    match first_page.lookup "total_pages" with
    | none => (.error (.keyError "total_pages"), [1])
    | some tp =>
      match tp.asNat with
      | none => (.error .typeError, [1])
      | some total_pages =>
        match first_page.lookup "results" with
        | none => (.error (.keyError "results"), [1])
        | some result =>
          let step := runPages fetch extract result
            (rangePy 2 (total_pages + 1))
          (step.1, 1 :: step.2)

/-- The per-page extraction `get_search_page(page_no)['results']` of
`search` (`people.py` 197). -/
def extractResults (page : Json) : Except PyErr Json :=
  match page.lookup "results" with
  | none => .error (.keyError "results")
  | some v => .ok v

/-- `People.search` (`people.py` 164-199), run against a canned session.
The `kwargs` filter string and `per_page` only shape the request URL, which
the page-keyed oracle absorbs.  Fetches page 1, then pages
`2..total_pages`, extending `result` with each page's `results` list. -/
def search (session : PageSession) (slug : String) : Except PyErr Json × List Nat :=
  countedPaginate (fetchPage session "Search" (GET_PEOPLE_URL slug ++ "/search"))
    extractResults

/-- `People.get_nearby` (`people.py` 297-330), run against a canned session
(the miles/kilometres conversion only shapes the request URL).  Identical
to `search` except that the loop body is `result += get_nearby_page(p)` —
the whole page object, not its `results` list. -/
def get_nearby (session : PageSession) (slug : String) :
    Except PyErr Json × List Nat :=
  countedPaginate (fetchPage session "Get nearby" (GET_PEOPLE_URL slug ++ "/nearby"))
    (fun page => .ok page)

/-- One observable event of the `get_people_iter` generator: a page request
issued, or a record yielded to the consumer. -/
inductive Ev where
  | fetch (page : Nat) : Ev
  | yield (record : Json) : Ev

/-- The body of `get_people_iter`'s `for current_page in range(2,
total_pages + 1)` loop (`people.py` 292-295): yield every record of the
page currently held, then fetch the page numbered `p`, holding it for the
next iteration.  Produces the event trace and the exception, if any, that
terminates the generator. -/
def iterPages (fetch : Nat → Except PyErr Json) :
    Json → List Nat → List Ev × Option PyErr
  | _, [] => ([], none)
  | page, p :: rest =>
    match page.lookup "results" with
    | none => ([], some (.keyError "results"))
    | some res =>
      match pyIter res with
      | none => ([], some .typeError)
      | some records =>
        let yields := records.map Ev.yield
        match fetch p with
        | .error e => (yields ++ [Ev.fetch p], some e)
        | .ok page2 =>
          let step := iterPages fetch page2 rest
          (yields ++ Ev.fetch p :: step.1, step.2)

/-- `People.get_people_iter` (`people.py` 263-295), run against a canned
session, observed as its full event trace: fetch page 1, read
`total_pages`, then iterate `range(2, total_pages + 1)` yielding the held
page's records before fetching the next page. -/
def get_people_iter (session : PageSession) (slug : String) :
    List Ev × Option PyErr :=
  let fetch := fetchPage session "Get people page" (GET_PEOPLE_URL slug)
  match fetch 1 with
  | .error e => ([Ev.fetch 1], some e)
  | .ok page1 =>
    match page1.lookup "total_pages" with
    | none => ([Ev.fetch 1], some (.keyError "total_pages"))
    | some tp =>
      match tp.asNat with
      | none => ([Ev.fetch 1], some .typeError)
      | some total_pages =>
        let step := iterPages fetch page1 (rangePy 2 (total_pages + 1))
        (Ev.fetch 1 :: step.1, step.2)

/-- The records a `get_people_iter` trace hands to the consumer, in order. -/
def yielded : List Ev → List Json
  | [] => []
  | Ev.yield r :: rest => r :: yielded rest
  | Ev.fetch _ :: rest => yielded rest

/-- Python `v == "s"` where `v` is an arbitrary JSON value: true only for
an equal string (comparing a dict, number, etc. to a string is `False`). -/
def jsonEqStr : Json → String → Bool
  | .str t, s => t = s
  | _, _ => false

/-- `People.get_person_by_email` (`people.py` 201-221), applied to the
response of the GET on `MATCH_EMAIL_URL`: on a 400, look up `code` in the
JSON body (`KeyError` if absent) and return `None` when it equals
`"no_matches"`, otherwise fall through to `_check_response` (which raises,
400 being non-2xx); on a 200, return the decoded body; on anything else,
run `_check_response` and (when it passes, e.g. a 204) return `None`. -/
def get_person_by_email (r : Response) (url : String) : Except PyErr Json :=
  if r.status_code = 400 then
    match r.json.lookup "code" with
    | none => .error (.keyError "code")
    | some c =>
      if jsonEqStr c "no_matches" then
        .ok .null
      else
        match _check_response r (some "Get person by email") (some url) with
        | .error e => .error e
        | .ok _ => .ok .null
  else if r.status_code = 200 then
    .ok r.json
  else
    match _check_response r (some "Get person by email") (some url) with
    | .error e => .error e
    | .ok _ => .ok .null

/-- `People.get_person` (`people.py` 25-42), applied to the response: run
`_check_response`, then return `response.json()`. -/
def get_person (r : Response) (url : String) : Except PyErr Json :=
  match _check_response r (some "Get Person") (some url) with
  | .error e => .error e
  | .ok _ => .ok r.json

/-- `Pages.create_page`'s response handling (`pages.py` 44-48): no
`_check_response` call; `response.json()` when `response.ok`
(status < 400), else `None` — returned normally, not raised. -/
def create_page (r : Response) : Except PyErr Json :=
  if r.ok then .ok r.json else .ok .null

/-- `Blog.create_blog_post`'s response handling (`blog.py` 39-44): run
`_check_response` (raises on any non-2xx), then `response.json()` when
`response.ok`, else `None`. -/
def create_blog_post (r : Response) : Except PyErr Json :=
  match _check_response r (some "Create blog post") (some r.url) with
  | .error e => .error e
  | .ok _ => if r.ok then .ok r.json else .ok .null

/-- An HTTP request as the client builds it: method, url, and the JSON
payload attached via the `json=`/`data=` keyword, `none` when the call
sends no body. -/
structure Request where
  method : String
  url : String
  body : Option Json

/-- The request `People.create_person` issues (`people.py` 77-104):
`session.post(url, headers=...)` with NO `data=` or `json=` keyword — the
`person_body` parameter is never used, so no payload is sent. -/
def create_person_request (slug : String) (person_body : Json) : Request :=
  ⟨"POST", GET_PEOPLE_URL slug, none⟩

/-- The request `Pages.create_page` issues (`pages.py` 41-44):
`session.post(url, json=\x7bpage_type: page\x7d)`. -/
def create_page_request (slug site_slug page_type : String) (page : Json) :
    Request :=
  ⟨"POST", PAGES_URL slug site_slug, some (.obj [(page_type, page)])⟩

/-- The request `Blog.create_blog_post` issues (`blog.py` 35-39):
`session.post(url, json=\x7b"blog_post": blog_post\x7d)`. -/
def create_blog_post_request (slug site_slug : String) (blog_id : Int)
    (blog_post : Json) : Request :=
  ⟨"POST", BLOG_POSTS_URL slug site_slug blog_id,
    some (.obj [("blog_post", blog_post)])⟩

/-- An `AuthorizedSession` as `_authorize` configures it (`nb_api.py`
157-159): credentials bound to the access token, with server certificate
verification disabled. -/
structure Session where
  token : String
  verify : Bool
deriving DecidableEq

/-- The mutable state of one `NationBuilderApi` object (`nb_api.py` 64-124)
that `_authorize` reads and writes: the constructor stores the api key in
`ACCESS_TOKEN` (possibly `None`, e.g. from a missing environment variable)
and initialises `session` to `None`. -/
structure ApiState where
  ACCESS_TOKEN : Option String
  session : Option Session
deriving DecidableEq

/-- A canned HTTP layer keyed by request URL, for link-following endpoints. -/
def Net : Type := String → Response

/-- `NationBuilderApi._authorize` (`nb_api.py` 149-159): if a session
already exists, return at once; otherwise `assert` the access token is
present (an absent token raises `AssertionError`), build credentials from
it and store an `AuthorizedSession` with certificate verification
disabled.  The result pairs the new state with the number of sessions this
call constructed; the `net` oracle is passed in (the surrounding object
can reach the network) but the body issues no request through it. -/
def _authorize (net : Net) (s : ApiState) : Except PyErr (ApiState × Nat) :=
  match s.session with
  | some _ => .ok (s, 0)
  | none =>
    match s.ACCESS_TOKEN with
    | none => .error .assertionError
    | some tok => .ok (⟨s.ACCESS_TOKEN, some ⟨tok, false⟩⟩, 1)

/-- `NationBuilder.__init__` (`nationbuilder.py` 47-54): the entry-point
object constructs one separate resource-module object per API — `Blog`,
`Contacts`, `Lists`, `Pages`, `People`, `NBTags` — each calling the
`NationBuilderApi` constructor with the same slug/api_key pair, so each
holds its own independent `session = None` field. -/
structure NationBuilder where
  blog_posts : ApiState
  contacts : ApiState
  lists : ApiState
  pages : ApiState
  people : ApiState
  tags : ApiState
deriving DecidableEq

/-- The state `NationBuilder.__init__` leaves each module in. -/
def NationBuilder.init (api_key : Option String) : NationBuilder :=
  let m : ApiState := ⟨api_key, none⟩
  ⟨m, m, m, m, m, m⟩

/-- One network event of the link-following driver: a GET of a url, or the
POST `create_page` issues when copying to a destination site. -/
inductive NetEv where
  | get (url : String) : NetEv
  | post (url : String) (body : Option Json) : NetEv

/-- `Pages.get_pages` (`pages.py` 30-35): GET the basic-pages url for the
site, validate, return `response.json()`. -/
def get_pages (net : Net) (slug site_slug : String) : Except PyErr Json :=
  let url := PAGES_URL slug site_slug
  let r := net url
  match _check_response r (some "Get pages") (some url) with
  | .error e => .error e
  | .ok _ => .ok r.json

/-- `Pages.get_next_pages` (`pages.py` 37-39): GET the given url and
validate — the body has NO return statement, so on success Python returns
`None`; the fetched page's JSON is discarded. -/
def get_next_pages (net : Net) (url : String) : Except PyErr Json :=
  let r := net url
  match _check_response r (some "Get pages") (some url) with
  | .error e => .error e
  | .ok _ => .ok .null

/-- `handle_pages` (`nationbuilder.py` 95-113), run against a canned
network.  The `while` loop's first test passes (`pages is None`) and every
path through the body ends in the trailing `break`, so exactly one
iteration runs, with `next_page_url` still `None`: fetch the first page
via `get_pages`.  When a destination slug is given, copy at most the FIRST
page of `results` via `create_page` (the inner loop ends in `break` too;
the printed report is elided), then return the first fetched page.
Produces the outcome and the trace of network events. -/
def handle_pages (net : Net) (slug site_slug : String)
    (destination_site_slug : Option String) :
    Except PyErr Json × List NetEv :=
  let url := PAGES_URL slug site_slug
  let fetched := get_pages net slug site_slug
  match fetched with
  | .error e => (.error e, [.get url])
  | .ok pages =>
    match destination_site_slug with
    | none => (.ok pages, [.get url])
    | some dest =>
      match pages.lookup "results" with
      | none => (.error (.keyError "results"), [.get url])
      | some res =>
        match pyIter res with
        | none => (.error .typeError, [.get url])
        | some [] => (.ok pages, [.get url])
        | some (page :: _) =>
          let req := create_page_request slug dest "basic_page" page
          (.ok pages, [.get url, .post req.url req.body])

/-! Concrete fixtures used by witnesses and counterexamples. -/

/-- A canned network that answers every URL with an empty 200. -/
def net0 : Net := fun url => ⟨200, [], "", url, .null⟩

/-- An abbreviated person record, as the people endpoints return them. -/
def personA : Json := .obj [("id", .num 1)]

/-- A second person record. -/
def personB : Json := .obj [("id", .num 2)]

/-- A third person record. -/
def personC : Json := .obj [("id", .num 3)]

/-- A 200 response for a counted-pagination page body. -/
def pageResp (j : Json) : Response := ⟨200, [], "", "u", j⟩

/-- A 500 response with a diagnostic body. -/
def r500 : Response := ⟨500, [("X-Err", "yes")], "boom", "u", .null⟩

/-- Claim C1: `_check_response` returns normally on every status in
[200, 299]; raises `NBNotFoundError` on exactly 404, `NBBadRequestError`
on exactly 400, and the generic `NBResponseError` on any other status
outside 200-299; and every raised error carries the response's headers,
its raw body text, and the request URL. -/
theorem check_response_classifies (r : Response) (act u : Option String) :
    (200 ≤ r.status_code ∧ r.status_code ≤ 299 →
      _check_response r act u = .ok ()) ∧
    (r.status_code = 404 →
      _check_response r act u =
        .error (.nb ⟨.notFound, actionOr act, r.headers, r.text, u⟩)) ∧
    (r.status_code = 400 →
      _check_response r act u =
        .error (.nb ⟨.badRequest, actionOr act, r.headers, r.text, u⟩)) ∧
    ((r.status_code < 200 ∨ 299 < r.status_code) →
      r.status_code ≠ 404 → r.status_code ≠ 400 →
      _check_response r act u =
        .error (.nb ⟨.generic, actionOr act, r.headers, r.text, u⟩)) := by
  unfold _check_response _raise_error
  refine ⟨fun h => ?_, fun h => ?_, fun h => ?_, fun h h4 h4' => ?_⟩
  · rw [if_neg (by omega)]
  · rw [if_pos (by omega), if_pos h]
  · rw [if_pos (by omega), if_neg (by omega), if_pos h]
  · rw [if_pos (by omega), if_neg h4, if_neg h4']

/-- Witness for C1: a concrete 404 response maps to `NBNotFoundError`
carrying the headers, body text and url. -/
theorem check_response_classifies_witness :
    _check_response ⟨404, [("X-Trace", "t1")], "not here", "u", .null⟩
        (some "Get Person") (some "https://acme.nationbuilder.com/api/v1/people/42")
      = .error (.nb ⟨.notFound, actionOr (some "Get Person"), [("X-Trace", "t1")],
          "not here", some "https://acme.nationbuilder.com/api/v1/people/42"⟩) :=
  (check_response_classifies _ _ _).2.1 rfl

/-- An example request payload, already wrapped the way the docstring of
`create_person` shows it. -/
def examplePerson : Json :=
  .obj [("person", .obj [("email", .str "bob@example.com")])]

/-- Claim C10: `create_page` and `create_blog_post` wrap their payload
under the resource-named key, but `create_person` ignores its
`person_body` argument entirely and issues its POST with no body at all. -/
theorem create_person_sends_no_body :
    (create_person_request "acme" examplePerson).body = none ∧
    (create_page_request "acme" "site" "basic_page" examplePerson).body =
      some (.obj [("basic_page", examplePerson)]) ∧
    (create_blog_post_request "acme" "site" 5 examplePerson).body =
      some (.obj [("blog_post", examplePerson)]) :=
  ⟨rfl, rfl, rfl⟩

/-- Counterexample for C4: `create_page` never calls `_check_response`; on
a 500 response it returns `None` normally instead of raising. -/
theorem create_page_swallows_500 :
    create_page r500 = .ok .null := rfl

/-- Claim C4 (amended): every operation that routes its response through
`_check_response` raises a typed `NBResponseError` to the caller on any
non-2xx response — shown for the validator itself, for `get_person`, for
`create_blog_post`, and for the shared paginated-page fetch; `create_page`
is the exception the counterexample exhibits. -/
theorem checked_ops_raise_on_non2xx (r : Response) (act u : Option String)
    (url : String) (h : r.status_code < 200 ∨ 299 < r.status_code) :
    (∃ e, _check_response r act u = .error (.nb e)) ∧
    (∃ e, get_person r url = .error (.nb e)) ∧
    (∃ e, create_blog_post r = .error (.nb e)) ∧
    (∃ e, fetchPage (fun _ => r) "Search" url 2 = .error (.nb e)) := by
  have hc : ∀ a v : Option String, ∃ e : NBError,
      _check_response r a v = .error (.nb e) := by
    intro a v
    unfold _check_response _raise_error
    rw [if_pos (by omega)]
    exact ⟨_, rfl⟩
  refine ⟨hc act u, ?_, ?_, ?_⟩
  · obtain ⟨e, he⟩ := hc (some "Get Person") (some url)
    exact ⟨e, by unfold get_person; rw [he]⟩
  · obtain ⟨e, he⟩ := hc (some "Create blog post") (some r.url)
    exact ⟨e, by unfold create_blog_post; rw [he]⟩
  · obtain ⟨e, he⟩ := hc (some "Search") (some url)
    exact ⟨e, by unfold fetchPage; dsimp only; rw [he]⟩

/-- Witness for C4 (amended): the classified operations all raise on a
concrete 500 response. -/
theorem checked_ops_raise_on_non2xx_witness :
    (∃ e, _check_response r500 none none = .error (.nb e)) ∧
    (∃ e, get_person r500 "u" = .error (.nb e)) ∧
    (∃ e, create_blog_post r500 = .error (.nb e)) ∧
    (∃ e, fetchPage (fun _ => r500) "Search" "u" 2 = .error (.nb e)) :=
  checked_ops_raise_on_non2xx r500 none none "u" (by decide)

/-- The canned 3-page nearby session: every page is a JSON object with a
`total_pages` field of 3 and a one-record `results` list. -/
def nearbySession : PageSession := fun p =>
  if p = 1 then pageResp (.obj [("total_pages", .num 3), ("results", .arr [personA])])
  else if p = 2 then pageResp (.obj [("total_pages", .num 3), ("results", .arr [personB])])
  else pageResp (.obj [("total_pages", .num 3), ("results", .arr [personC])])

/-- Claim C2: on a 3-page run, `get_nearby` does request pages 1, 2, 3 in
order, but its loop extends the result with the WHOLE page-2 and page-3
JSON objects — Python `list += dict` appends the dict's keys — so the
returned value is page 1's records followed by the key strings
`"total_pages", "results"` of each later page, not the records of pages 2
and 3: the concatenation-of-results property fails. -/
theorem get_nearby_appends_page_keys :
    get_nearby nearbySession "acme" =
      (.ok (.arr [personA, .str "total_pages", .str "results",
                  .str "total_pages", .str "results"]), [1, 2, 3]) := rfl

/-- A one-page people session: `total_pages = 1` with a single record. -/
def iterSession1 : PageSession := fun _ =>
  pageResp (.obj [("total_pages", .num 1), ("results", .arr [personA])])

/-- The canned 3-page people session for `get_people_iter`. -/
def iterSession3 : PageSession := nearbySession

/-- Claim C3: `get_people_iter`'s loop runs for `range(2, total_pages+1)`
and yields the held page BEFORE fetching the next, so the final page is
fetched but never yielded: with `total_pages = 1` the generator yields
nothing at all, and with `total_pages = 3` it yields only pages 1 and 2,
fetching page 3 for nothing — the records of pages `1..N` are not all
produced. -/
theorem get_people_iter_drops_last_page :
    get_people_iter iterSession1 "acme" = ([Ev.fetch 1], none) ∧
    get_people_iter iterSession3 "acme" =
      ([Ev.fetch 1, Ev.yield personA, Ev.fetch 2, Ev.yield personB,
        Ev.fetch 3], none) ∧
    yielded (get_people_iter iterSession3 "acme").1 = [personA, personB] :=
  ⟨rfl, rfl, rfl⟩

/-- A 3-page search session whose page 2 has an empty `results` list. -/
def emptyP2Session : PageSession := fun p =>
  if p = 1 then pageResp (.obj [("total_pages", .num 3), ("results", .arr [personA])])
  else if p = 2 then pageResp (.obj [("total_pages", .num 3), ("results", .arr [])])
  else pageResp (.obj [("total_pages", .num 3), ("results", .arr [personC])])

/-- Counterexample for C5: with page 2's `results` empty, `search` still
requests page 3 (the request log is `[1, 2, 3]`) and returns page 1's and
page 3's records — not only page 1's, and with a page 3 request issued. -/
theorem search_fetches_page3_after_empty_page2 :
    search emptyP2Session "acme" =
      (.ok (.arr [personA, personC]), [1, 2, 3]) := rfl

/-- Claim C5 (amended): counted pagination never short-circuits: whenever
the first page reports `total_pages = 3` and all three pages respond 200
with `results` lists, `search` requests pages 1, 2 and 3 in order and
returns the concatenation of all three `results` lists, regardless of
page 2's list being empty — an empty page merely contributes nothing; it
neither stops the page requests nor raises. -/
theorem search_no_short_circuit (session : PageSession) (slug : String)
    (p1 p2 p3 : Response) (r1 r2 r3 : List Json)
    (h1 : session 1 = p1) (h2 : session 2 = p2) (h3 : session 3 = p3)
    (s1 : p1.status_code = 200) (s2 : p2.status_code = 200)
    (s3 : p3.status_code = 200)
    (tp : p1.json.lookup "total_pages" = some (.num 3))
    (res1 : p1.json.lookup "results" = some (.arr r1))
    (res2 : p2.json.lookup "results" = some (.arr r2))
    (res3 : p3.json.lookup "results" = some (.arr r3)) :
    search session slug = (.ok (.arr (r1 ++ r2 ++ r3)), [1, 2, 3]) := by
  subst h1 h2 h3
  unfold search countedPaginate fetchPage
  dsimp only
  rw [show _check_response (session 1) (some "Search")
        (some (GET_PEOPLE_URL slug ++ "/search")) = .ok () by
      unfold _check_response; rw [if_neg (by omega)]]
  dsimp only
  rw [tp]
  dsimp only [Json.asNat]
  rw [res1]
  dsimp only
  rw [show rangePy 2 (Int.toNat 3 + 1) = [2, 3] from rfl]
  unfold runPages
  rw [show _check_response (session 2) (some "Search")
        (some (GET_PEOPLE_URL slug ++ "/search")) = .ok () by
      unfold _check_response; rw [if_neg (by omega)]]
  dsimp only [extractResults]
  rw [res2]
  dsimp only [pyIAdd, pyIter, Option.map]
  unfold runPages
  rw [show _check_response (session 3) (some "Search")
        (some (GET_PEOPLE_URL slug ++ "/search")) = .ok () by
      unfold _check_response; rw [if_neg (by omega)]]
  dsimp only [extractResults]
  rw [res3]
  dsimp only [pyIAdd, pyIter, Option.map]
  unfold runPages
  rfl

/-- Witness for C5 (amended): the empty-page-2 session, with `[personA]`,
`[]` and `[personB, personC]` as the three `results` lists. -/
theorem search_no_short_circuit_witness :
    search (fun p =>
      if p = 1 then pageResp (.obj [("total_pages", .num 3), ("results", .arr [personA])])
      else if p = 2 then pageResp (.obj [("total_pages", .num 3), ("results", .arr [])])
      else pageResp (.obj [("total_pages", .num 3), ("results", .arr [personB, personC])]))
      "acme" = (.ok (.arr ([personA] ++ [] ++ [personB, personC])), [1, 2, 3]) :=
  search_no_short_circuit _ "acme" _ _ _ [personA] [] [personB, personC]
    rfl rfl rfl rfl rfl rfl rfl rfl rfl rfl

/-- The `next` URL carried by the first basic-pages response. -/
def nextUrl : String :=
  PAGES_URL "acme" "site" ++ "?page=2"

/-- A canned two-page link-following sequence: the first page's `next`
field points at `nextUrl`, whose response has `next` null. -/
def linkNet : Net := fun url =>
  if url = nextUrl then
    ⟨200, [], "", nextUrl, .obj [("results", .arr [personB]), ("next", .null)]⟩
  else
    ⟨200, [], "", url, .obj [("results", .arr [personA]), ("next", .str nextUrl)]⟩

/-- Claim C6: on a canned two-page sequence, the link-following driver
`handle_pages` issues exactly one request — the initial listing GET — and
returns only page 1 (whose `next` still points at page 2, never fetched,
so page 2's record is absent from the output); and `get_next_pages`, the
helper meant to follow `next`, discards the fetched page and returns
`None` because its body has no return statement. -/
theorem handle_pages_fetches_only_first_page :
    handle_pages linkNet "acme" "site" none =
      (.ok (.obj [("results", .arr [personA]), ("next", .str nextUrl)]),
        [.get (PAGES_URL "acme" "site")]) ∧
    get_next_pages linkNet nextUrl = .ok .null :=
  ⟨rfl, rfl⟩

/-- Counterexample for C7: one `NationBuilder` client built from one
slug/api_key pair hands each resource module its own `session = None`
state, so authorizing the `people` module and then the `pages` module of
the same client performs two session constructions (each call reports 1)
— more than one authenticated session for one Client Identity, with no
sharing between modules. -/
theorem client_constructs_two_sessions :
    _authorize net0 (NationBuilder.init (some "T")).people =
      .ok (⟨some "T", some ⟨"T", false⟩⟩, 1) ∧
    _authorize net0 (NationBuilder.init (some "T")).pages =
      .ok (⟨some "T", some ⟨"T", false⟩⟩, 1) :=
  ⟨rfl, rfl⟩

/-- Claim C7 (amended): per resource-module object, `_authorize` is
idempotent and constructs at most one session: any successful call
constructs at most one session, leaves the module holding a session, and a
second call returns the same state having constructed nothing — but each of
a client's six resource modules holds its own session, so one client may
construct up to one session per module, not one per Client Identity. -/
theorem authorize_idempotent_per_module (net : Net) (s s' : ApiState)
    (n : Nat) (h : _authorize net s = .ok (s', n)) :
    _authorize net s' = .ok (s', 0) ∧ n ≤ 1 ∧ s'.session.isSome = true := by
  cases hs : s.session with
  | some sess =>
    have ha : _authorize net s = .ok (s, 0) := by
      unfold _authorize; rw [hs]
    rw [ha, Except.ok.injEq, Prod.mk.injEq] at h
    obtain ⟨rfl, rfl⟩ := h
    exact ⟨ha, by omega, by rw [hs]; rfl⟩
  | none =>
    cases ht : s.ACCESS_TOKEN with
    | none =>
      have ha : _authorize net s = .error .assertionError := by
        unfold _authorize; rw [hs, ht]
      rw [ha] at h
      exact Except.noConfusion h
    | some tok =>
      have ha : _authorize net s =
          .ok (⟨s.ACCESS_TOKEN, some ⟨tok, false⟩⟩, 1) := by
        unfold _authorize; rw [hs, ht]
      rw [ha, Except.ok.injEq, Prod.mk.injEq] at h
      obtain ⟨rfl, rfl⟩ := h
      exact ⟨by unfold _authorize; rfl, by omega, rfl⟩

/-- Witness for C7 (amended): a fresh module with token `"T"` authorizes
once (constructing one session) and the second call is a no-op. -/
theorem authorize_idempotent_per_module_witness :
    _authorize net0 ⟨some "T", some ⟨"T", false⟩⟩ =
      .ok (⟨some "T", some ⟨"T", false⟩⟩, 0) ∧
    1 ≤ 1 ∧ (⟨some "T", some ⟨"T", false⟩⟩ : ApiState).session.isSome = true :=
  authorize_idempotent_per_module net0 ⟨some "T", none⟩ _ 1 rfl

/-- A 400 response whose JSON body has no `code` field. -/
def r400NoCode : Response :=
  ⟨400, [], "unrelated", "u", .obj [("error", .str "x")]⟩

/-- True iff the outcome is a raised `NBBadRequestError`. -/
def raisesBadRequest : Except PyErr Json → Bool
  | .error (.nb e) =>
    match e.kind with
    | .badRequest => true
    | _ => false
  | _ => false

/-- Counterexample for C8: on a 400 response whose body is JSON but lacks
a `code` field, `get_person_by_email` raises `KeyError`, not
`BadRequestError` — the claim's "any other body raises BadRequestError"
fails. -/
theorem email_400_without_code_raises_keyerror :
    get_person_by_email r400NoCode "u" = .error (.keyError "code") ∧
    raisesBadRequest (get_person_by_email r400NoCode "u") = false :=
  ⟨rfl, rfl⟩

/-- Claim C8 (amended): `get_person_by_email` checks the body's `code`
before the generic 400 mapping: a 400 whose body has
`code = "no_matches"` returns `None` without raising; a 400 whose body has
any other `code` value raises `NBBadRequestError`; a 400 whose JSON body
has no `code` field raises `KeyError`; and a 200 returns the decoded JSON
body. -/
theorem get_person_by_email_spec (r : Response) (url : String) :
    (r.status_code = 400 →
      r.json.lookup "code" = some (.str "no_matches") →
      get_person_by_email r url = .ok .null) ∧
    (∀ c, r.status_code = 400 → r.json.lookup "code" = some c →
      jsonEqStr c "no_matches" = false →
      get_person_by_email r url =
        .error (.nb ⟨.badRequest, "Get person by email",
          r.headers, r.text, some url⟩)) ∧
    (r.status_code = 400 → r.json.lookup "code" = none →
      get_person_by_email r url = .error (.keyError "code")) ∧
    (r.status_code = 200 → get_person_by_email r url = .ok r.json) := by
  unfold get_person_by_email
  refine ⟨fun h hc => ?_, fun c h hc hne => ?_, fun h hc => ?_, fun h => ?_⟩
  · rw [if_pos h, hc]
    dsimp only
    rw [if_pos (by rfl)]
  · rw [if_pos h, hc]
    dsimp only
    rw [if_neg (by rw [hne]; exact Bool.false_ne_true)]
    rw [show _check_response r (some "Get person by email") (some url) =
        .error (.nb ⟨.badRequest, "Get person by email", r.headers, r.text,
          some url⟩) from by
      unfold _check_response _raise_error
      rw [if_pos (by omega), if_neg (by omega), if_pos h]
      rfl]
  · rw [if_pos h, hc]
  · rw [if_neg (by omega), if_pos h]

/-- Witness for C8 (amended): a 400 with body `code = "no_matches"`
returns `None`. -/
theorem get_person_by_email_spec_witness :
    get_person_by_email ⟨400, [], "", "u", .obj [("code", .str "no_matches")]⟩
      "u" = .ok .null :=
  (get_person_by_email_spec _ "u").1 rfl rfl

/-- Counterexample for C9: with the access token absent, the first
authorization attempt fails with the builtin `AssertionError` from the
bare `assert`, which is not the spec's `ConfigurationError` (no such class
exists in the source). -/
theorem authorize_missing_token_not_configuration :
    _authorize net0 ⟨none, none⟩ = .error .assertionError ∧
    PyErr.assertionError ≠ PyErr.configurationError :=
  ⟨rfl, fun h => PyErr.noConfusion h⟩

/-- Claim C9 (amended): on a module with no session yet, `_authorize`
fails with `AssertionError` (not a dedicated configuration-error type)
when the access token is absent; when a token is present it constructs the
session locally — bound to the token, certificate verification disabled —
counting one construction; and in either case the outcome is independent
of the network oracle: the first authorization performs no network I/O. -/
theorem authorize_first_call_spec (net : Net) (s : ApiState)
    (h : s.session = none) :
    (s.ACCESS_TOKEN = none → _authorize net s = .error .assertionError) ∧
    (∀ tok, s.ACCESS_TOKEN = some tok →
      _authorize net s = .ok (⟨s.ACCESS_TOKEN, some ⟨tok, false⟩⟩, 1)) ∧
    (∀ net2, _authorize net s = _authorize net2 s) := by
  unfold _authorize
  rw [h]
  refine ⟨fun ht => ?_, fun tok ht => ?_, fun net2 => rfl⟩
  · rw [ht]
  · rw [ht]

/-- Witness for C9 (amended): a fresh module holding token `"T"`
authorizes into a verification-disabled session without touching the
network. -/
theorem authorize_first_call_spec_witness :
    _authorize net0 ⟨some "T", none⟩ =
      .ok (⟨some "T", some ⟨"T", false⟩⟩, 1) := by
  have h := (authorize_first_call_spec net0 ⟨some "T", none⟩ rfl).2.1 "T" rfl
  exact h

end NbPy
